import Mathlib

/-!
Verification of the API-context / access-level gate, the init "ready" event,
and the ElementsClient login flow of the permit-node SDK.

The definitions below are a shallow embedding of:
  * `src/api/base.ts` (`BasePermitApi.setContextFromApiKey`,
    `BasePermitApi.ensureAccessLevel`, `BasePermitApi.ensureContext`);
  * `src/index.ts` (`AuthorizonSDK.init` and its `ready` event);
  * `ElementsClient.loginAs`.
Asynchronous network calls are modelled by passing the outcome of the remote
call (`Except SdkError ScopeResponse`) as an explicit argument; mutation of
`this.config.apiContext` is modelled by explicit state passing.
-/

/-- Modelled from the spec: `ApiKeyLevel` lives in the file defining
`ApiContext` (only its caller `base.ts` is available).  The spec gives the
carrier `{WAIT_FOR_INIT, ORGANIZATION, PROJECT, ENVIRONMENT}` for the
permitted access level of a credential. -/
inductive ApiKeyLevel where
  | WAIT_FOR_INIT
  | ORGANIZATION
  | PROJECT
  | ENVIRONMENT
deriving DecidableEq, Repr

/-- Modelled from the spec: `ApiContextLevel` lives in the file defining
`ApiContext`.  The spec gives the carrier
`{WAIT_FOR_INIT, ORGANIZATION, PROJECT, ENVIRONMENT}` for the scope level. -/
inductive ApiContextLevel where
  | WAIT_FOR_INIT
  | ORGANIZATION
  | PROJECT
  | ENVIRONMENT
deriving DecidableEq, Repr

/-- Modelled from the spec: the numeric value of the TypeScript enum
`ApiContextLevel`, used by the comparison `contextLevel < requiredContext` in
`ensureContext`.  The spec fixes the total order
ORGANIZATION < PROJECT < ENVIRONMENT and says the level starts at
`WAIT_FOR_INIT` (the unresolved, least specific state). -/
def ApiContextLevel.toNat : ApiContextLevel → Nat
  | .WAIT_FOR_INIT => 0
  | .ORGANIZATION => 1
  | .PROJECT => 2
  | .ENVIRONMENT => 3

/-- Modelled from the spec: the `API_ACCESS_LEVELS` array used by
`ensureAccessLevel` via `indexOf`.  Listed most-specific-first so that
`indexOf(required) < indexOf(permitted)` holds exactly when the permitted
level is coarser-grained than the required level under the spec order
ORGANIZATION < PROJECT < ENVIRONMENT. -/
def API_ACCESS_LEVELS : List ApiKeyLevel :=
  [.ENVIRONMENT, .PROJECT, .ORGANIZATION]

/-- TypeScript `Array.prototype.indexOf`: index of the first occurrence,
`-1` when absent. -/
def tsIndexOf (xs : List ApiKeyLevel) (x : ApiKeyLevel) : Int :=
  match xs.findIdx? (fun y => y = x) with
  | some i => (i : Int)
  | none => -1

/-- Errors surfaced by the embedded operations.  `permitContextError` is the
`PermitContextError` class; `axiosError` stands for a raw network/auth error
raised by the HTTP layer. -/
inductive SdkError where
  | permitContextError (msg : String)
  | axiosError (status : Nat) (data : String)
deriving DecidableEq, Repr

/-- `true` exactly on a `PermitContextError` outcome. -/
def isContextError (r : Except SdkError Unit) : Bool :=
  match r with
  | .error (.permitContextError _) => true
  | _ => false

/-- `true` when the outcome is success or a `PermitContextError` (never a raw
network error). -/
def neverRawError (r : Except SdkError Unit) : Bool :=
  match r with
  | .ok _ => true
  | .error (.permitContextError _) => true
  | .error (.axiosError _ _) => false

/-- Response body of the remote scope lookup
`GET → \x7borganization_id, project_id?, environment_id?\x7d`; absent or null
fields are `none`. -/
structure ScopeResponse where
  organization_id : Option String
  project_id : Option String
  environment_id : Option String
deriving DecidableEq, Repr

/-- The mutable `ApiContext` state: the scope level, the permitted access
level, and the resolved identifiers once known. -/
structure ApiContext where
  contextLevel : ApiContextLevel
  permittedAccessLevel : ApiKeyLevel
  org : Option String
  project : Option String
  environment : Option String
deriving DecidableEq, Repr

/-- The initial `ApiContext`: both levels start at `WAIT_FOR_INIT`
(spec: lazily resolved on first access requiring it). -/
def initApiContext : ApiContext :=
  { contextLevel := .WAIT_FOR_INIT
    permittedAccessLevel := .WAIT_FOR_INIT
    org := none
    project := none
    environment := none }

/-- Modelled from the spec: `ApiContext._saveApiKeyAccessibleScope` lives in
the missing context file.  It records the scope the key may access and sets
the permitted access level at the granularity of the identifiers present
(spec: the permitted access level is set from a successful scope lookup). -/
def ApiContext.saveApiKeyAccessibleScope (ctx : ApiContext) (orgId : String)
    (projId envId : Option String) : ApiContext :=
  { ctx with
    org := some orgId
    project := projId
    environment := envId
    permittedAccessLevel :=
      match projId, envId with
      | some _, some _ => .ENVIRONMENT
      | some _, none => .PROJECT
      | none, _ => .ORGANIZATION }

/-- Modelled from the spec: `ApiContext.setEnvironmentLevelContext` sets an
environment-level scope. -/
def ApiContext.setEnvironmentLevelContext (ctx : ApiContext)
    (orgId projId envId : String) : ApiContext :=
  { ctx with
    contextLevel := .ENVIRONMENT
    org := some orgId
    project := some projId
    environment := some envId }

/-- Modelled from the spec: `ApiContext.setProjectLevelContext` sets a
project-level scope. -/
def ApiContext.setProjectLevelContext (ctx : ApiContext)
    (orgId projId : String) : ApiContext :=
  { ctx with
    contextLevel := .PROJECT
    org := some orgId
    project := some projId
    environment := none }

/-- Modelled from the spec: `ApiContext.setOrganizationLevelContext` sets an
organization-level scope. -/
def ApiContext.setOrganizationLevelContext (ctx : ApiContext)
    (orgId : String) : ApiContext :=
  { ctx with
    contextLevel := .ORGANIZATION
    org := some orgId
    project := none
    environment := none }

/-- Body of the `try` block of `BasePermitApi.setContextFromApiKey`
(`src/api/base.ts` lines 52-89), given an already-arrived response. -/
def setContextFromApiKeyBody (ctx : ApiContext) (r : ScopeResponse) :
    Except SdkError Unit × ApiContext :=
  match r.organization_id with
  | some orgId =>
    let saved := ctx.saveApiKeyAccessibleScope orgId r.project_id r.environment_id
    match r.project_id with
    | some projId =>
      match r.environment_id with
      | some envId =>
        (.ok (), saved.setEnvironmentLevelContext orgId projId envId)
      | none => (.ok (), saved.setProjectLevelContext orgId projId)
    | none => (.ok (), saved.setOrganizationLevelContext orgId)
  | none => (.error (.permitContextError "could not set api context level"), ctx)

/-- `BasePermitApi.setContextFromApiKey` (`src/api/base.ts` lines 50-102).
`lookup` is the outcome of `this.scopeApi.getApiKeyScope()`.  Any error in
the `try` block (a failed remote call or a body with no organization id) is
caught and rethrown as a single `PermitContextError`. -/
def setContextFromApiKey (ctx : ApiContext)
    (lookup : Except SdkError ScopeResponse) :
    Except SdkError Unit × ApiContext :=
  let attempt : Except SdkError Unit × ApiContext :=
    match lookup with
    | .error e => (.error e, ctx)
    | .ok r => setContextFromApiKeyBody ctx r
  match attempt.1 with
  | .ok _ => (.ok (), attempt.2)
  | .error _ =>
    (.error (.permitContextError
      "could not fetch the api key scope in order to set the api context level"),
      attempt.2)

instance {ε α : Type} [DecidableEq ε] [DecidableEq α] :
    DecidableEq (Except ε α) := fun a b =>
  match a, b with
  | .ok x, .ok y => decidable_of_iff (x = y) (by simp)
  | .error e, .error f => decidable_of_iff (e = f) (by simp)
  | .ok _, .error _ => isFalse (fun h => Except.noConfusion h)
  | .error _, .ok _ => isFalse (fun h => Except.noConfusion h)

/-- Result of one guard call: the outcome, the post-state, and whether the
call performed a remote scope lookup. -/
structure GuardResult where
  result : Except SdkError Unit
  ctx : ApiContext
  didLookup : Bool
deriving DecidableEq, Repr

/-- `true` when a guard would still trigger lazy resolution: the condition of
`src/api/base.ts` lines 112-115 and 139-142. -/
def needsLookup (ctx : ApiContext) : Bool :=
  ctx.contextLevel = ApiContextLevel.WAIT_FOR_INIT ∨
    ctx.permittedAccessLevel = ApiKeyLevel.WAIT_FOR_INIT

/-- `BasePermitApi.ensureAccessLevel` (`src/api/base.ts` lines 110-130). -/
def ensureAccessLevel (ctx : ApiContext)
    (lookup : Except SdkError ScopeResponse)
    (requiredAccessLevel : ApiKeyLevel) : GuardResult :=
  let resolved : Except SdkError Unit × ApiContext × Bool :=
    if needsLookup ctx then
      let s := setContextFromApiKey ctx lookup
      (s.1, s.2, true)
    else (.ok (), ctx, false)
  match resolved.1 with
  | .error e => ⟨.error e, resolved.2.1, resolved.2.2⟩
  | .ok _ =>
    let c := resolved.2.1
    if requiredAccessLevel ≠ c.permittedAccessLevel ∧
        tsIndexOf API_ACCESS_LEVELS requiredAccessLevel <
          tsIndexOf API_ACCESS_LEVELS c.permittedAccessLevel then
      ⟨.error (.permitContextError "insufficient api key access level"),
        c, resolved.2.2⟩
    else ⟨.ok (), c, resolved.2.2⟩

/-- `BasePermitApi.ensureContext` (`src/api/base.ts` lines 137-157). -/
def ensureContext (ctx : ApiContext)
    (lookup : Except SdkError ScopeResponse)
    (requiredContext : ApiContextLevel) : GuardResult :=
  let resolved : Except SdkError Unit × ApiContext × Bool :=
    if needsLookup ctx then
      let s := setContextFromApiKey ctx lookup
      (s.1, s.2, true)
    else (.ok (), ctx, false)
  match resolved.1 with
  | .error e => ⟨.error e, resolved.2.1, resolved.2.2⟩
  | .ok _ =>
    let c := resolved.2.1
    if c.contextLevel.toNat < requiredContext.toNat ∨
        c.contextLevel = ApiContextLevel.WAIT_FOR_INIT then
      ⟨.error (.permitContextError "less specific context level"),
        c, resolved.2.2⟩
    else ⟨.ok (), c, resolved.2.2⟩

/-- Specificity rank of an access level under the spec order
ORGANIZATION < PROJECT < ENVIRONMENT; `permitted` is coarser-grained than
`required` exactly when `accessRank permitted < accessRank required`. -/
def accessRank : ApiKeyLevel → Nat
  | .WAIT_FOR_INIT => 0
  | .ORGANIZATION => 1
  | .PROJECT => 2
  | .ENVIRONMENT => 3

lemma ensureAccessLevel_resolved (ctx : ApiContext)
    (lookup : Except SdkError ScopeResponse) (required : ApiKeyLevel)
    (h : needsLookup ctx = false) :
    ensureAccessLevel ctx lookup required =
      if required ≠ ctx.permittedAccessLevel ∧
          tsIndexOf API_ACCESS_LEVELS required <
            tsIndexOf API_ACCESS_LEVELS ctx.permittedAccessLevel then
        ⟨.error (.permitContextError "insufficient api key access level"),
          ctx, false⟩
      else ⟨.ok (), ctx, false⟩ := by
  simp [ensureAccessLevel, h]

lemma ensureContext_resolved (ctx : ApiContext)
    (lookup : Except SdkError ScopeResponse) (required : ApiContextLevel)
    (h : needsLookup ctx = false) :
    ensureContext ctx lookup required =
      if ctx.contextLevel.toNat < required.toNat ∨
          ctx.contextLevel = ApiContextLevel.WAIT_FOR_INIT then
        ⟨.error (.permitContextError "less specific context level"), ctx, false⟩
      else ⟨.ok (), ctx, false⟩ := by
  simp [ensureContext, h]

lemma ensureContext_lookupOk (ctx : ApiContext)
    (lookup : Except SdkError ScopeResponse) (required : ApiContextLevel)
    (h : needsLookup ctx = true)
    (hok : (setContextFromApiKey ctx lookup).1 = .ok ()) :
    ensureContext ctx lookup required =
      if (setContextFromApiKey ctx lookup).2.contextLevel.toNat <
            required.toNat ∨
          (setContextFromApiKey ctx lookup).2.contextLevel =
            ApiContextLevel.WAIT_FOR_INIT then
        ⟨.error (.permitContextError "less specific context level"),
          (setContextFromApiKey ctx lookup).2, true⟩
      else ⟨.ok (), (setContextFromApiKey ctx lookup).2, true⟩ := by
  simp [ensureContext, h, hok]

/-- Claim C1: for every required access level (of the three real levels) and
every resolved permitted access level, `ensureAccessLevel required` throws a
`PermitContextError` exactly when the permitted level is coarser-grained than
the required level under the fixed total order
ORGANIZATION < PROJECT < ENVIRONMENT, and returns normally otherwise. -/
theorem ensureAccessLevel_throws_iff_coarser (ctx : ApiContext)
    (lookup : Except SdkError ScopeResponse) (required : ApiKeyLevel)
    (hreq : required ≠ ApiKeyLevel.WAIT_FOR_INIT)
    (hc : ctx.contextLevel ≠ ApiContextLevel.WAIT_FOR_INIT)
    (hp : ctx.permittedAccessLevel ≠ ApiKeyLevel.WAIT_FOR_INIT) :
    isContextError (ensureAccessLevel ctx lookup required).result = true ↔
      accessRank ctx.permittedAccessLevel < accessRank required := by
  rcases ctx with ⟨cl, pal, o, p, e⟩
  have h : needsLookup ⟨cl, pal, o, p, e⟩ = false := by
    simp only [needsLookup, decide_eq_false_iff_not]
    rintro (h1 | h2)
    · exact hc h1
    · exact hp h2
  rw [ensureAccessLevel_resolved _ lookup required h,
    apply_ite GuardResult.result]
  cases pal <;> cases required <;>
    first
      | exact absurd rfl hreq
      | exact absurd rfl hp
      | (dsimp only; decide)

/-- Claim C1 witness: an organization-level key attempting an
environment-level operation is rejected with a `PermitContextError`. -/
theorem ensureAccessLevel_throws_iff_coarser_witness :
    isContextError (ensureAccessLevel
      ⟨.ORGANIZATION, .ORGANIZATION, some "o", none, none⟩
      (.error (.axiosError 500 "down")) .ENVIRONMENT).result = true :=
  (ensureAccessLevel_throws_iff_coarser
    ⟨.ORGANIZATION, .ORGANIZATION, some "o", none, none⟩
    (.error (.axiosError 500 "down")) .ENVIRONMENT
    (by decide) (by decide) (by decide)).mpr (by decide)

/-- Claim C2: after lazy resolution (assuming the lookup phase itself did not
error), `ensureContext required` throws a `PermitContextError` exactly when
the currently resolved context level is less specific than the required level
or still unresolved, and returns normally otherwise. -/
theorem ensureContext_throws_iff_less_specific (ctx : ApiContext)
    (lookup : Except SdkError ScopeResponse) (required : ApiContextLevel)
    (hok : needsLookup ctx = true → (setContextFromApiKey ctx lookup).1 = .ok ()) :
    isContextError (ensureContext ctx lookup required).result = true ↔
      ((ensureContext ctx lookup required).ctx.contextLevel.toNat <
          required.toNat ∨
        (ensureContext ctx lookup required).ctx.contextLevel =
          ApiContextLevel.WAIT_FOR_INIT) := by
  by_cases h : needsLookup ctx = true
  · rw [ensureContext_lookupOk ctx lookup required h (hok h)]
    split <;> rename_i hcond <;> simp [isContextError, hcond]
  · rw [ensureContext_resolved ctx lookup required (by simpa using h)]
    split <;> rename_i hcond <;> simp [isContextError, hcond]

/-- Claim C2 witness: an api key whose scope resolves to organization level
fails `ensureContext(PROJECT)`. -/
theorem ensureContext_throws_iff_less_specific_witness :
    isContextError (ensureContext initApiContext
      (.ok ⟨some "o", none, none⟩) .PROJECT).result = true :=
  (ensureContext_throws_iff_less_specific initApiContext
    (.ok ⟨some "o", none, none⟩) .PROJECT (fun _ => by decide)).mpr (by decide)

/-- Claim C3: the context-resolution routine sets the context level to
ENVIRONMENT when all three ids are present, to PROJECT when organization and
project ids are present but the environment id is not, to ORGANIZATION when
only the organization id is present, and throws a `PermitContextError` when
the organization id is absent; a response containing only an organization id
yields an ORGANIZATION-level context on which `ensureContext(PROJECT)`
fails. -/
theorem setContextFromApiKey_level_cases (ctx : ApiContext) (r : ScopeResponse) :
    (∀ o p e, r.organization_id = some o → r.project_id = some p →
        r.environment_id = some e →
        (setContextFromApiKey ctx (.ok r)).1 = .ok () ∧
        (setContextFromApiKey ctx (.ok r)).2.contextLevel =
          ApiContextLevel.ENVIRONMENT) ∧
    (∀ o p, r.organization_id = some o → r.project_id = some p →
        r.environment_id = none →
        (setContextFromApiKey ctx (.ok r)).1 = .ok () ∧
        (setContextFromApiKey ctx (.ok r)).2.contextLevel =
          ApiContextLevel.PROJECT) ∧
    (∀ o, r.organization_id = some o → r.project_id = none →
        r.environment_id = none →
        (setContextFromApiKey ctx (.ok r)).1 = .ok () ∧
        (setContextFromApiKey ctx (.ok r)).2.contextLevel =
          ApiContextLevel.ORGANIZATION ∧
        (∀ lk2, isContextError
          (ensureContext (setContextFromApiKey ctx (.ok r)).2 lk2
            .PROJECT).result = true)) ∧
    (r.organization_id = none →
        isContextError (setContextFromApiKey ctx (.ok r)).1 = true ∧
        (setContextFromApiKey ctx (.ok r)).2 = ctx) := by
  rcases r with ⟨ro, rp, re⟩
  refine ⟨?_, ?_, ?_, ?_⟩
  · rintro o p e rfl rfl rfl
    constructor <;> rfl
  · rintro o p rfl rfl rfl
    constructor <;> rfl
  · rintro o rfl rfl rfl
    refine ⟨rfl, rfl, ?_⟩
    intro lk2
    rfl
  · rintro rfl
    constructor <;> rfl

/-- Claim C3 witness: on a response carrying only an organization id, the
resolved context level is ORGANIZATION. -/
theorem setContextFromApiKey_level_cases_witness :
    (setContextFromApiKey initApiContext
      (.ok ⟨some "o", none, none⟩)).2.contextLevel =
      ApiContextLevel.ORGANIZATION :=
  ((setContextFromApiKey_level_cases initApiContext
    ⟨some "o", none, none⟩).2.2.1 "o" rfl rfl rfl).2.1

/-- The context level the spec words assign to a scope response: the longest
fully-present prefix of (organization, project, environment). -/
def specLongestFullPrefixLevel (r : ScopeResponse) : ApiContextLevel :=
  match r.organization_id, r.project_id, r.environment_id with
  | some _, some _, some _ => .ENVIRONMENT
  | some _, some _, none => .PROJECT
  | some _, none, _ => .ORGANIZATION
  | none, _, _ => .WAIT_FOR_INIT

/-- Claim C9: whenever the organization id is present the resolution
succeeds and sets the context level to the longest fully-present prefix of
(organization, project, environment); in particular a response with an
organization id and an environment id but no project id yields an
ORGANIZATION-level context. -/
theorem setContextFromApiKey_prefix_level (ctx : ApiContext)
    (r : ScopeResponse) (o : String) (h : r.organization_id = some o) :
    (setContextFromApiKey ctx (.ok r)).1 = .ok () ∧
    (setContextFromApiKey ctx (.ok r)).2.contextLevel =
      specLongestFullPrefixLevel r := by
  rcases r with ⟨ro, rp, re⟩
  cases h
  cases rp <;> cases re <;> exact ⟨rfl, rfl⟩

/-- Claim C9 witness: organization id plus environment id without a project
id resolves to ORGANIZATION-level context. -/
theorem setContextFromApiKey_prefix_level_witness :
    (setContextFromApiKey initApiContext
      (.ok ⟨some "o", none, some "e"⟩)).2.contextLevel =
      ApiContextLevel.ORGANIZATION :=
  (setContextFromApiKey_prefix_level initApiContext
    ⟨some "o", none, some "e"⟩ "o" rfl).2.trans rfl

/-- Claim C8: every error produced by the context-resolution routine —
whether the remote lookup fails or it succeeds without an organization id —
is a `PermitContextError`, and neither `ensureAccessLevel` nor
`ensureContext` ever surfaces a raw network error during lazy resolution. -/
theorem resolution_errors_are_context_errors (ctx : ApiContext)
    (lookup : Except SdkError ScopeResponse) (ra : ApiKeyLevel)
    (rc : ApiContextLevel) :
    neverRawError (setContextFromApiKey ctx lookup).1 = true ∧
    neverRawError (ensureAccessLevel ctx lookup ra).result = true ∧
    neverRawError (ensureContext ctx lookup rc).result = true := by
  have hset : neverRawError (setContextFromApiKey ctx lookup).1 = true := by
    rcases lookup with e | r
    · rfl
    · rcases r with ⟨ro, rp, re⟩
      rcases ro with _ | o
      · rfl
      · rcases rp with _ | p <;> rcases re with _ | e <;> rfl
  refine ⟨hset, ?_, ?_⟩
  · rw [ensureAccessLevel]
    by_cases h : needsLookup ctx = true
    · simp only [h, if_true]
      rcases hs : (setContextFromApiKey ctx lookup).1 with e | u
      · rw [hs] at hset
        simp only [hs]
        simpa [neverRawError] using hset
      · cases u
        simp only [hs]
        split <;> rfl
    · simp only [Bool.not_eq_true] at h
      simp only [h, Bool.false_eq_true, if_false]
      split <;> rfl
  · rw [ensureContext]
    by_cases h : needsLookup ctx = true
    · simp only [h, if_true]
      rcases hs : (setContextFromApiKey ctx lookup).1 with e | u
      · rw [hs] at hset
        simp only [hs]
        simpa [neverRawError] using hset
      · cases u
        simp only [hs]
        split <;> rfl
    · simp only [Bool.not_eq_true] at h
      simp only [h, Bool.false_eq_true, if_false]
      split <;> rfl

lemma ensureAccessLevel_didLookup (ctx : ApiContext)
    (lookup : Except SdkError ScopeResponse) (ra : ApiKeyLevel)
    (h : needsLookup ctx = true) :
    (ensureAccessLevel ctx lookup ra).didLookup = true := by
  rw [ensureAccessLevel]
  simp only [h, if_true]
  rcases hs : (setContextFromApiKey ctx lookup).1 with e | u
  · simp only [hs]
  · cases u
    simp only [hs]
    split <;> rfl

lemma ensureContext_didLookup (ctx : ApiContext)
    (lookup : Except SdkError ScopeResponse) (rc : ApiContextLevel)
    (h : needsLookup ctx = true) :
    (ensureContext ctx lookup rc).didLookup = true := by
  rw [ensureContext]
  simp only [h, if_true]
  rcases hs : (setContextFromApiKey ctx lookup).1 with e | u
  · simp only [hs]
  · cases u
    simp only [hs]
    split <;> rfl

/-- Claim C5: when the remote scope lookup fails, both guards surface a
`PermitContextError` and leave the API context unchanged, so a later call to
either guard performs the lookup again instead of reusing a cached
failure. -/
theorem lookup_failure_surfaces_and_leaves_state (ctx : ApiContext)
    (e : SdkError) (ra : ApiKeyLevel) (rc : ApiContextLevel)
    (h1 : ctx.contextLevel = ApiContextLevel.WAIT_FOR_INIT)
    (h2 : ctx.permittedAccessLevel = ApiKeyLevel.WAIT_FOR_INIT) :
    isContextError (ensureAccessLevel ctx (.error e) ra).result = true ∧
    (ensureAccessLevel ctx (.error e) ra).ctx = ctx ∧
    isContextError (ensureContext ctx (.error e) rc).result = true ∧
    (ensureContext ctx (.error e) rc).ctx = ctx ∧
    (∀ lk2 ra2, (ensureAccessLevel (ensureAccessLevel ctx (.error e) ra).ctx
      lk2 ra2).didLookup = true) ∧
    (∀ lk2 rc2, (ensureContext (ensureContext ctx (.error e) rc).ctx
      lk2 rc2).didLookup = true) := by
  have hn : needsLookup ctx = true := by
    simp [needsLookup, h1]
  have hA : ensureAccessLevel ctx (.error e) ra =
      ⟨.error (.permitContextError
        "could not fetch the api key scope in order to set the api context level"),
        ctx, true⟩ := by
    rw [ensureAccessLevel]
    simp only [hn, if_true]
    rfl
  have hC : ensureContext ctx (.error e) rc =
      ⟨.error (.permitContextError
        "could not fetch the api key scope in order to set the api context level"),
        ctx, true⟩ := by
    rw [ensureContext]
    simp only [hn, if_true]
    rfl
  refine ⟨by rw [hA]; rfl, by rw [hA], by rw [hC]; rfl, by rw [hC],
    ?_, ?_⟩
  · intro lk2 ra2
    rw [hA]
    exact ensureAccessLevel_didLookup ctx lk2 ra2 hn
  · intro lk2 rc2
    rw [hC]
    exact ensureContext_didLookup ctx lk2 rc2 hn

/-- Claim C5 witness: a network error on the very first guard call yields a
`PermitContextError` and leaves the context untouched. -/
theorem lookup_failure_surfaces_and_leaves_state_witness :
    isContextError (ensureAccessLevel initApiContext
      (.error (.axiosError 500 "down")) .ENVIRONMENT).result = true ∧
    (ensureAccessLevel initApiContext
      (.error (.axiosError 500 "down")) .ENVIRONMENT).ctx = initApiContext :=
  ⟨(lookup_failure_surfaces_and_leaves_state initApiContext
      (.axiosError 500 "down") .ENVIRONMENT .ENVIRONMENT rfl rfl).1,
    (lookup_failure_surfaces_and_leaves_state initApiContext
      (.axiosError 500 "down") .ENVIRONMENT .ENVIRONMENT rfl rfl).2.1⟩

/-- One guard invocation on the shared context: either
`ensureAccessLevel(required)` or `ensureContext(required)`. -/
inductive ApiCall where
  | accessLevel (required : ApiKeyLevel)
  | contextCall (required : ApiContextLevel)
deriving DecidableEq, Repr

/-- Execute one guard call against the current context; `lk` is the outcome
the remote scope lookup would produce if performed during this call. -/
def guardStep (ctx : ApiContext) (c : ApiCall)
    (lk : Except SdkError ScopeResponse) : GuardResult :=
  match c with
  | .accessLevel r => ensureAccessLevel ctx lk r
  | .contextCall r => ensureContext ctx lk r

/-- Run a sequence of guard calls, returning the final context, the number of
remote scope lookups performed, and the number of those that succeeded in
resolving the scope. -/
def runCalls : ApiContext → List (ApiCall × Except SdkError ScopeResponse) →
    ApiContext × Nat × Nat
  | ctx, [] => (ctx, 0, 0)
  | ctx, (c, lk) :: rest =>
    ((runCalls (guardStep ctx c lk).ctx rest).1,
      (if (guardStep ctx c lk).didLookup = true then 1 else 0) +
        (runCalls (guardStep ctx c lk).ctx rest).2.1,
      (if (guardStep ctx c lk).didLookup = true ∧
          needsLookup (guardStep ctx c lk).ctx = false then 1 else 0) +
        (runCalls (guardStep ctx c lk).ctx rest).2.2)

lemma guardStep_resolved (ctx : ApiContext) (c : ApiCall)
    (lk : Except SdkError ScopeResponse) (h : needsLookup ctx = false) :
    (guardStep ctx c lk).ctx = ctx ∧ (guardStep ctx c lk).didLookup = false := by
  cases c with
  | accessLevel r =>
    show (ensureAccessLevel ctx lk r).ctx = ctx ∧
      (ensureAccessLevel ctx lk r).didLookup = false
    rw [ensureAccessLevel_resolved ctx lk r h]
    split <;> exact ⟨rfl, rfl⟩
  | contextCall r =>
    show (ensureContext ctx lk r).ctx = ctx ∧
      (ensureContext ctx lk r).didLookup = false
    rw [ensureContext_resolved ctx lk r h]
    split <;> exact ⟨rfl, rfl⟩

lemma runCalls_resolved (calls : List (ApiCall × Except SdkError ScopeResponse))
    (ctx : ApiContext) (h : needsLookup ctx = false) :
    runCalls ctx calls = (ctx, 0, 0) := by
  induction calls generalizing ctx with
  | nil => rfl
  | cons hd tl ih =>
    obtain ⟨c, lk⟩ := hd
    have hg := guardStep_resolved ctx c lk h
    rw [runCalls, hg.1, hg.2, ih ctx h]
    simp

/-- Claim C4: in every sequential execution the remote scope lookup happens
only while a level is still WAIT_FOR_INIT — starting from a resolved context
no call performs a lookup — and across any sequence of guard calls at most
one lookup succeeds in resolving the scope. -/
theorem at_most_one_successful_lookup (ctx : ApiContext)
    (calls : List (ApiCall × Except SdkError ScopeResponse)) :
    (runCalls ctx calls).2.2 ≤ 1 ∧
    (needsLookup ctx = false → (runCalls ctx calls).2.1 = 0) := by
  constructor
  · induction calls generalizing ctx with
    | nil => exact Nat.zero_le 1
    | cons hd tl ih =>
      obtain ⟨c, lk⟩ := hd
      rw [runCalls]
      cases h2 : needsLookup (guardStep ctx c lk).ctx with
      | false =>
        rw [runCalls_resolved tl _ h2]
        dsimp only
        split <;> simp
      | true =>
        dsimp only
        simpa using ih (guardStep ctx c lk).ctx
  · intro h
    rw [runCalls_resolved calls ctx h]

/-- Claim C4 witness: from an already-resolved context a run of guard calls
performs zero remote lookups. -/
theorem at_most_one_successful_lookup_witness :
    (runCalls ⟨.ENVIRONMENT, .ENVIRONMENT, some "o", some "p", some "e"⟩
      [(.contextCall .PROJECT, .error (.axiosError 500 "down")),
        (.accessLevel .ENVIRONMENT, .error (.axiosError 500 "down"))]).2.1 =
      0 :=
  (at_most_one_successful_lookup
    ⟨.ENVIRONMENT, .ENVIRONMENT, some "o", some "p", some "e"⟩
    [(.contextCall .PROJECT, .error (.axiosError 500 "down")),
      (.accessLevel .ENVIRONMENT, .error (.axiosError 500 "down"))]).2 rfl

/-- Where a caller of a guard stands: before its unresolved-state check,
suspended at the `await` of the remote scope lookup, or finished with the
resolution part of the guard. -/
inductive CallerPhase where
  | start
  | awaiting
  | done
deriving DecidableEq, Repr

/-- Two concurrent guard callers sharing one `ApiContext`, with a count of
the remote scope-lookup calls issued so far. -/
structure TwoCallerSys where
  ctx : ApiContext
  phase1 : CallerPhase
  phase2 : CallerPhase
  remoteCalls : Nat
deriving DecidableEq, Repr

/-- Advance one caller by one atomic segment of
`src/api/base.ts` lines 112-117: the check of the context levels and the
issuing of `getApiKeyScope()` run synchronously up to the first `await`; the
shared context is only written after the response arrives. -/
def callerStep (lookup : Except SdkError ScopeResponse) (ph : CallerPhase)
    (ctx : ApiContext) (calls : Nat) : CallerPhase × ApiContext × Nat :=
  match ph with
  | .start =>
    if needsLookup ctx then (.awaiting, ctx, calls + 1)
    else (.done, ctx, calls)
  | .awaiting => (.done, (setContextFromApiKey ctx lookup).2, calls)
  | .done => (.done, ctx, calls)

/-- Schedule caller 1 (`who = true`) or caller 2 (`who = false`) for one
atomic segment. -/
def schedStep (lookup : Except SdkError ScopeResponse) (sys : TwoCallerSys)
    (who : Bool) : TwoCallerSys :=
  if who then
    let s := callerStep lookup sys.phase1 sys.ctx sys.remoteCalls
    ⟨s.2.1, s.1, sys.phase2, s.2.2⟩
  else
    let s := callerStep lookup sys.phase2 sys.ctx sys.remoteCalls
    ⟨s.2.1, sys.phase1, s.1, s.2.2⟩

/-- Both callers start before any resolution has happened. -/
def initTwoCallerSys : TwoCallerSys :=
  ⟨initApiContext, .start, .start, 0⟩

/-- Run an interleaving (a list of scheduling choices) of the two callers. -/
def runSched (lookup : Except SdkError ScopeResponse)
    (sched : List Bool) : TwoCallerSys :=
  sched.foldl (schedStep lookup) initTwoCallerSys

/-- Claim C6 counterexample: two callers that both perform their
unresolved-state check before either resolution completes issue two remote
scope-lookup calls, not exactly one, even though the lookup succeeds — the
code has no single-flight de-duplication. -/
theorem concurrent_lookup_not_single_flight :
    (runSched (.ok ⟨some "org", some "proj", some "env"⟩)
      [true, false, true, false]).remoteCalls = 2 ∧
    (runSched (.ok ⟨some "org", some "proj", some "env"⟩)
      [true, false, true, false]).phase1 = .done ∧
    (runSched (.ok ⟨some "org", some "proj", some "env"⟩)
      [true, false, true, false]).phase2 = .done ∧
    ¬(runSched (.ok ⟨some "org", some "proj", some "env"⟩)
      [true, false, true, false]).remoteCalls = 1 := by
  decide

lemma schedStep_no_start (lookup : Except SdkError ScopeResponse)
    (sys : TwoCallerSys) (who : Bool)
    (h1 : sys.phase1 ≠ CallerPhase.start)
    (h2 : sys.phase2 ≠ CallerPhase.start) :
    (schedStep lookup sys who).remoteCalls = sys.remoteCalls ∧
    (schedStep lookup sys who).phase1 ≠ CallerPhase.start ∧
    (schedStep lookup sys who).phase2 ≠ CallerPhase.start := by
  rcases sys with ⟨ctx, p1, p2, n⟩
  cases who <;> cases p1 <;> cases p2 <;>
    first
      | exact absurd rfl h1
      | exact absurd rfl h2
      | exact ⟨rfl, by simp [schedStep, callerStep], by simp [schedStep, callerStep]⟩

lemma foldl_no_start (lookup : Except SdkError ScopeResponse)
    (tail : List Bool) (sys : TwoCallerSys)
    (h1 : sys.phase1 ≠ CallerPhase.start)
    (h2 : sys.phase2 ≠ CallerPhase.start) :
    (tail.foldl (schedStep lookup) sys).remoteCalls = sys.remoteCalls := by
  induction tail generalizing sys with
  | nil => rfl
  | cons who rest ih =>
    have hs := schedStep_no_start lookup sys who h1 h2
    rw [List.foldl_cons, ih (schedStep lookup sys who) hs.2.1 hs.2.2, hs.1]

/-- Claim C6 amended: the code has no single-flight de-duplication — when
both callers perform their unresolved-state check before either resolution
completes, each issues its own remote scope-lookup call: exactly two remote
calls are made regardless of the lookup outcome and of how the schedule
continues. -/
theorem concurrent_lookup_duplicates (lookup : Except SdkError ScopeResponse)
    (tail : List Bool) :
    (runSched lookup (true :: false :: tail)).remoteCalls = 2 := by
  have hstep : schedStep lookup (schedStep lookup initTwoCallerSys true) false =
      ⟨initApiContext, .awaiting, .awaiting, 2⟩ := rfl
  show (List.foldl (schedStep lookup)
    (schedStep lookup (schedStep lookup initTwoCallerSys true) false)
    tail).remoteCalls = 2
  rw [hstep]
  exact foldl_no_start lookup tail ⟨initApiContext, .awaiting, .awaiting, 2⟩
    (by decide) (by decide)

/-- A minimal `EventEmitter` for one event name (`ready`): the registered
listeners (by id, in registration order) and the log of listener
invocations.  `emit` invokes exactly the currently registered listeners
(Node semantics); `on`/`once` append a listener. -/
structure ReadyEmitter where
  listeners : List Nat
  invoked : List Nat
deriving DecidableEq, Repr

/-- `events.emit('ready')`. -/
def emitReady (em : ReadyEmitter) : ReadyEmitter :=
  { em with invoked := em.invoked ++ em.listeners }

/-- `client.on('ready', l)` / `client.once('ready', l)`. -/
def subscribeReady (em : ReadyEmitter) (l : Nat) : ReadyEmitter :=
  { em with listeners := em.listeners ++ [l] }

/-- `AuthorizonSDK.init` (`src/index.ts`): a fresh `EventEmitter` is created,
the clients are wired up, `events.emit('ready')` runs, and only then is the
object carrying `on`/`once` returned.  This is the emitter state at the
moment `init` returns. -/
def sdkInitEmitter : ReadyEmitter :=
  emitReady { listeners := [], invoked := [] }

/-- Emitter state after the caller of `init` registers `subs` listeners
through the returned client; `ready` is emitted nowhere else in the source,
so no further `emitReady` occurs. -/
def emitterAfterInit (subs : List Nat) : ReadyEmitter :=
  subs.foldl subscribeReady sdkInitEmitter

lemma foldl_subscribeReady (subs : List Nat) (em : ReadyEmitter) :
    (subs.foldl subscribeReady em).invoked = em.invoked ∧
    (subs.foldl subscribeReady em).listeners = em.listeners ++ subs := by
  induction subs generalizing em with
  | nil => simp
  | cons l rest ih =>
    rw [List.foldl_cons]
    refine ⟨(ih (subscribeReady em l)).1, ?_⟩
    rw [(ih (subscribeReady em l)).2]
    simp [subscribeReady]

/-- Claim C7: the `ready` event is emitted inside `AuthorizonSDK.init`
before the client carrying `on`/`once` is returned, so every listener
registered through the returned client is registered after the emission and
is never invoked — the event is not a usable synchronization point. -/
theorem ready_event_fires_before_subscription (subs : List Nat) :
    sdkInitEmitter.invoked = [] ∧
    (emitterAfterInit subs).invoked = [] ∧
    (emitterAfterInit subs).listeners = subs := by
  refine ⟨rfl, ?_, ?_⟩
  · exact (foldl_subscribeReady subs sdkInitEmitter).1
  · rw [emitterAfterInit, (foldl_subscribeReady subs sdkInitEmitter).2]
    rfl

/-- The body returned by the remote `elementsLoginAs` call:
`redirect_url`, the other body fields (kept abstract as key-value pairs),
and the `content` field the SDK adds. -/
structure EmbeddedLoginRequestOutputWithContent where
  redirect_url : String
  extraFields : List (String × String)
  content : Option String
deriving DecidableEq, Repr

/-- `ElementsClient.loginAs`: on a successful remote call it returns the
response body with `content` set to a value holding the body's own
`redirect_url` (the TypeScript sets `res.content = \x7b url: ... \x7d`; here
`content = some redirect_url`); on a failed call it logs and rethrows the
original error unchanged.  `callResult` is the outcome of
`this.authApi.elementsLoginAs(...)`. -/
def loginAs
    (callResult : Except SdkError EmbeddedLoginRequestOutputWithContent) :
    Except SdkError EmbeddedLoginRequestOutputWithContent :=
  match callResult with
  | .ok data => .ok { data with content := some data.redirect_url }
  | .error err => .error err

/-- Claim C10: on success `loginAs` returns the response body augmented with
a `content` field holding the body's own `redirect_url`, preserving the
other fields; on failure it rethrows the original error unchanged. -/
theorem loginAs_augments_or_rethrows
    (callResult : Except SdkError EmbeddedLoginRequestOutputWithContent)
    (data : EmbeddedLoginRequestOutputWithContent) (err : SdkError) :
    (callResult = .ok data →
      ∃ res, loginAs callResult = .ok res ∧
        res.redirect_url = data.redirect_url ∧
        res.extraFields = data.extraFields ∧
        res.content = some data.redirect_url) ∧
    (callResult = .error err → loginAs callResult = .error err) := by
  constructor
  · rintro rfl
    exact ⟨{ data with content := some data.redirect_url }, rfl, rfl, rfl, rfl⟩
  · rintro rfl
    rfl

/-- Claim C10 witness: a concrete successful response gains
`content = some redirect_url`, and a concrete failure is rethrown as is. -/
theorem loginAs_augments_or_rethrows_witness :
    (∃ res, loginAs (.ok ⟨"https://app/login", [("token", "t")], none⟩) =
        .ok res ∧
      res.redirect_url = "https://app/login" ∧
      res.extraFields = [("token", "t")] ∧
      res.content = some "https://app/login") ∧
    loginAs (.error (.axiosError 403 "forbidden")) =
      .error (.axiosError 403 "forbidden") :=
  ⟨(loginAs_augments_or_rethrows
      (.ok ⟨"https://app/login", [("token", "t")], none⟩)
      ⟨"https://app/login", [("token", "t")], none⟩
      (.axiosError 403 "forbidden")).1 rfl,
    (loginAs_augments_or_rethrows
      (.error (.axiosError 403 "forbidden"))
      ⟨"https://app/login", [("token", "t")], none⟩
      (.axiosError 403 "forbidden")).2 rfl⟩
